import Mathlib

/-!
Shallow embedding of the `help` Go package (`src/help.go`) and proofs of its
specified behavioral properties.

The package is a small help-display service.  Its observable behavior is:
a constructor `New` that resolves an asset source, an `Init` that injects a
core and a display collaborator, a `ServiceStartup` lifecycle check, and two
operations `Show` / `ShowAt` that either dispatch an `action` message through
the core collaborator or fall back to creating a window through the Wails
application singleton.

Effects (messages dispatched through `Core.ACTION`, windows created through
the Wails singleton, logger `Info` calls) are made explicit: each method
returns a `CallResult` recording the receiver state after the call, the
returned Go error, and the lists of effects it performed, in order.
-/

namespace Help

/-- A Go `error` value.  `tag` distinguishes error values that happen to carry
the same message, so that "the exact error value is returned" is a statement
about values, not merely about message strings. -/
structure GoError where
  tag : Nat
  msg : String
deriving DecidableEq, Repr

/-- Embeds Go's `fmt.Errorf` applied to a plain format string (no verbs). -/
def Errorf (s : String) : GoError := ⟨0, s⟩

/-- A Go `any` value as used in the dispatched `map[string]any` messages:
strings, integers, and nested string-keyed maps. -/
inductive GoVal where
  | str : String → GoVal
  | int : Int → GoVal
  | map : List (String × GoVal) → GoVal

/-- Looking a key up in a `GoVal.map`; `none` on non-map values and on
absent keys, like a Go map access reporting `ok = false`. -/
def GoVal.lookup : GoVal → String → Option GoVal
  | .map l, k => l.lookup k
  | .str _, _ => none
  | .int _, _ => none

/-- The keys of a `GoVal.map`, in construction order. -/
def GoVal.keys : GoVal → List String
  | .map l => l.map Prod.fst
  | .str _ => []
  | .int _ => []

/-- Looks up key `k` inside the nested `options` map of a message. -/
def GoVal.optionsEntry (m : GoVal) (k : String) : Option GoVal :=
  (m.lookup "options").bind (fun o => o.lookup k)

/-- An `fs.FS` value as the help service distinguishes them: a caller-supplied
handle (`Options.Assets`), a directory filesystem from `os.DirFS(path)`, or a
subtree of the embedded `helpStatic` filesystem produced by `fs.Sub`. -/
inductive FS where
  | caller : Nat → FS
  | dirFS : String → FS
  | embeddedSub : Nat → FS
deriving DecidableEq, Repr

/-- `Options` holds configuration for the help service (`help.go`):
`Source string` and `Assets fs.FS` (nil-able, hence `Option`). -/
structure Options where
  Source : String
  Assets : Option FS
deriving DecidableEq, Repr

/-- The `Core` collaborator interface: `ACTION(msg map[string]any) error`.
The `App()/Logger()` accessor chain is not a value the service stores; its
only use, the `Info` call in `ServiceStartup`, is recorded as an effect. -/
structure Core where
  ACTION : GoVal → Option GoError

/-- The `Display` collaborator is `interface{}`: only its presence matters. -/
abbrev Display : Type := Unit

/-- `Service` manages the in-app help system: fields `core`, `display`,
`assets`, `opts` exactly as in `help.go` (interface fields are nil-able). -/
structure Service where
  core : Option Core
  display : Option Display
  assets : FS
  opts : Options

/-- The options passed to `application.WebviewWindowOptions` on the fallback
path (only the fields `help.go` sets). -/
structure WebviewWindowOptions where
  Title : String
  Width : Int
  Height : Int
  URL : String
deriving DecidableEq, Repr

/-- The observable outcome of one method call: the receiver state afterwards,
the returned error, and the effects performed, in order. -/
structure CallResult where
  post : Service
  err : Option GoError
  dispatched : List GoVal
  windows : List WebviewWindowOptions
  logs : List String

/-- Embeds `fs.Sub(helpStatic, "public")`: an environment-supplied result,
since whether the embedded subtree can be located is decided by the build,
not by this package's code. -/
def SubResult : Type := Except GoError FS

/-- `New(opts Options) (*Service, error)` from `help.go`: defaults an empty
`Source` to `"mkdocs"`, then resolves `assets` with priority
`opts.Assets` > non-default `Source` directory > embedded subtree.  The Go
pair `(*Service, error)` is embedded as `Option Service × Option GoError`. -/
def New (opts0 : Options) (subPublic : SubResult) :
    Option Service × Option GoError :=
  let opts := if opts0.Source = "" then { opts0 with Source := "mkdocs" } else opts0
  match opts.Assets with
  | some a =>
      (some { core := none, display := none, assets := a, opts := opts }, none)
  | none =>
      if opts.Source ≠ "mkdocs" then
        (some { core := none, display := none, assets := FS.dirFS opts.Source,
                opts := opts }, none)
      else
        match subPublic with
        | .ok a =>
            (some { core := none, display := none, assets := a, opts := opts },
             none)
        | .error e => (none, some e)

/-- `Init(c Core, d Display)`: stores both collaborator references. -/
def Service.Init (s : Service) (c : Option Core) (d : Option Display) :
    Service :=
  { s with core := c, display := d }

/-- `ServiceStartup(context.Context) error`: fails when `core` is nil,
otherwise calls `s.core.App().Logger().Info("Help service started")` (recorded
in `logs`) and succeeds. -/
def Service.ServiceStartup (s : Service) : CallResult :=
  match s.core with
  | none =>
      { post := s, err := some (Errorf "core runtime not initialized"),
        dispatched := [], windows := [], logs := [] }
  | some _ =>
      { post := s, err := none, dispatched := [], windows := [],
        logs := ["Help service started"] }

/-- The message `Show` builds: `action`, `name`, and an `options` map with
`Title`, `Width`, `Height` — the exact literal from `help.go`. -/
def showMsg : GoVal :=
  .map [("action", .str "display.open_window"),
        ("name", .str "help"),
        ("options", .map [("Title", .str "Help"),
                          ("Width", .int 800),
                          ("Height", .int 600)])]

/-- Embeds `fmt.Sprintf("/#%s", anchor)`. -/
def anchorURL (anchor : String) : String := "/#" ++ anchor

/-- The message `ShowAt` builds: like `showMsg` but with the computed `URL`
appended to the `options` map. -/
def showAtMsg (anchor : String) : GoVal :=
  .map [("action", .str "display.open_window"),
        ("name", .str "help"),
        ("options", .map [("Title", .str "Help"),
                          ("Width", .int 800),
                          ("Height", .int 600),
                          ("URL", .str (anchorURL anchor))])]

/-- The `WebviewWindowOptions` literal both fallback paths pass to
`app.Window.NewWithOptions`, parametrized by the `URL` field. -/
def fallbackWindow (url : String) : WebviewWindowOptions :=
  { Title := "Help", Width := 800, Height := 600, URL := url }

/-- The Wails application singleton `application.Get()`: present or nil. -/
abbrev WailsApp : Type := Unit

/-- `Show() error` from `help.go`.  Checks `core` first, then `display`; with
no display it falls back to the Wails singleton `wails`, otherwise it
dispatches `showMsg` through `core.ACTION` and returns its error. -/
def Service.Show (s : Service) (wails : Option WailsApp) : CallResult :=
  match s.core with
  | none =>
      { post := s, err := some (Errorf "core runtime not initialized"),
        dispatched := [], windows := [], logs := [] }
  | some core =>
      match s.display with
      | none =>
          match wails with
          | none =>
              { post := s, err := some (Errorf "wails application not running"),
                dispatched := [], windows := [], logs := [] }
          | some _ =>
              { post := s, err := none, dispatched := [],
                windows := [fallbackWindow "/"], logs := [] }
      | some _ =>
          { post := s, err := core.ACTION showMsg, dispatched := [showMsg],
            windows := [], logs := [] }

/-- `ShowAt(anchor string) error` from `help.go`.  Identical to `Show` except
the fallback window and the dispatched `options` map carry the URL
`fmt.Sprintf("/#%s", anchor)`. -/
def Service.ShowAt (s : Service) (anchor : String) (wails : Option WailsApp) :
    CallResult :=
  match s.core with
  | none =>
      { post := s, err := some (Errorf "core runtime not initialized"),
        dispatched := [], windows := [], logs := [] }
  | some core =>
      match s.display with
      | none =>
          match wails with
          | none =>
              { post := s, err := some (Errorf "wails application not running"),
                dispatched := [], windows := [], logs := [] }
          | some _ =>
              { post := s, err := none, dispatched := [],
                windows := [fallbackWindow (anchorURL anchor)], logs := [] }
      | some _ =>
          { post := s, err := core.ACTION (showAtMsg anchor),
            dispatched := [showAtMsg anchor], windows := [], logs := [] }

/-! Concrete fixtures used by witnesses and counterexamples. -/

/-- A core collaborator whose dispatch always succeeds. -/
def coreOK : Core := ⟨fun _ => none⟩

/-- A distinguished dispatch-failure error value (non-zero tag, so it is not
an `Errorf` of this module). -/
def dispatchErr : GoError := ⟨7, "dispatch failed"⟩

/-- A core collaborator whose dispatch always fails with `dispatchErr`. -/
def coreFail : Core := ⟨fun _ => some dispatchErr⟩

/-- Options selecting a caller directory. -/
def optsDir : Options := { Source := "docs", Assets := none }

/-- A service with no injected core but a present display. -/
def sNoCore : Service :=
  { core := none, display := some (), assets := FS.dirFS "docs", opts := optsDir }

/-- A service with both collaborators injected, successful dispatch. -/
def sBoth : Service :=
  { core := some coreOK, display := some (), assets := FS.dirFS "docs",
    opts := optsDir }

/-- A service with both collaborators injected, failing dispatch. -/
def sBothFail : Service :=
  { core := some coreFail, display := some (), assets := FS.dirFS "docs",
    opts := optsDir }

/-- A service with a core but no display collaborator (fallback mode). -/
def sFallback : Service :=
  { core := some coreOK, display := none, assets := FS.dirFS "docs",
    opts := optsDir }

/-- C1: with no injected core (`core = nil`), `Show` and `ShowAt` both fail
with exactly "core runtime not initialized" and perform no effects, for every
anchor, every display state, and every Wails-singleton state — in particular
even when the display is also absent and the singleton is unavailable, so the
core check precedes the display check in both operations alike. -/
theorem show_showAt_core_nil_fails (s : Service) (wails : Option WailsApp)
    (anchor : String) (h : s.core = none) :
    (s.Show wails).err = some (Errorf "core runtime not initialized") ∧
    (s.ShowAt anchor wails).err = some (Errorf "core runtime not initialized") ∧
    (s.Show wails).dispatched = [] ∧ (s.Show wails).windows = [] ∧
    (s.ShowAt anchor wails).dispatched = [] ∧
    (s.ShowAt anchor wails).windows = [] := by
  obtain ⟨co, di, a, o⟩ := s
  replace h : co = none := h
  subst h
  exact ⟨rfl, rfl, rfl, rfl, rfl, rfl⟩

/-- Witness for C1 at a concrete service with a present display. -/
theorem show_showAt_core_nil_fails_witness :
    sNoCore.core = none ∧
    ((sNoCore.Show none).err = some (Errorf "core runtime not initialized") ∧
     (sNoCore.ShowAt "getting-started" none).err
        = some (Errorf "core runtime not initialized") ∧
     (sNoCore.Show none).dispatched = [] ∧ (sNoCore.Show none).windows = [] ∧
     (sNoCore.ShowAt "getting-started" none).dispatched = [] ∧
     (sNoCore.ShowAt "getting-started" none).windows = []) :=
  ⟨rfl, show_showAt_core_nil_fails sNoCore none "getting-started" rfl⟩

/-- C2: with both collaborators injected, `ShowAt anchor` dispatches exactly
the message `showAtMsg anchor`, whose `options` map carries
`URL = "/#" ++ anchor` verbatim — no validation, escaping or percent-encoding
— and the empty anchor yields exactly "/#". -/
theorem showAt_dispatched_url (s : Service) (c : Core) (wails : Option WailsApp)
    (anchor : String) (hc : s.core = some c) (hd : s.display = some ()) :
    (s.ShowAt anchor wails).dispatched = [showAtMsg anchor] ∧
    (showAtMsg anchor).optionsEntry "URL"
      = some (GoVal.str ("/#" ++ anchor)) ∧
    (showAtMsg "").optionsEntry "URL" = some (GoVal.str "/#") := by
  obtain ⟨co, di, a, o⟩ := s
  replace hc : co = some c := hc
  replace hd : di = some () := hd
  subst hc
  subst hd
  exact ⟨rfl, rfl, rfl⟩

/-- Witness for C2 at a concrete service and anchor. -/
theorem showAt_dispatched_url_witness :
    sBoth.core = some coreOK ∧ sBoth.display = some () ∧
    ((sBoth.ShowAt "getting-started" none).dispatched
        = [showAtMsg "getting-started"] ∧
     (showAtMsg "getting-started").optionsEntry "URL"
        = some (GoVal.str ("/#" ++ "getting-started")) ∧
     (showAtMsg "").optionsEntry "URL" = some (GoVal.str "/#")) :=
  ⟨rfl, rfl, showAt_dispatched_url sBoth coreOK none "getting-started" rfl rfl⟩

/-- C3: with both collaborators injected, every message dispatched by `Show`
or `ShowAt` has `action = "display.open_window"`, `name = "help"`, and an
`options` map with `Title = "Help"`, `Width = 800`, `Height = 600`. -/
theorem dispatched_action_name (s : Service) (c : Core) (wails : Option WailsApp)
    (anchor : String) (hc : s.core = some c) (hd : s.display = some ()) :
    (s.Show wails).dispatched = [showMsg] ∧
    (s.ShowAt anchor wails).dispatched = [showAtMsg anchor] ∧
    ∀ m ∈ (s.Show wails).dispatched ++ (s.ShowAt anchor wails).dispatched,
      m.lookup "action" = some (GoVal.str "display.open_window") ∧
      m.lookup "name" = some (GoVal.str "help") ∧
      m.optionsEntry "Title" = some (GoVal.str "Help") ∧
      m.optionsEntry "Width" = some (GoVal.int 800) ∧
      m.optionsEntry "Height" = some (GoVal.int 600) := by
  obtain ⟨co, di, a, o⟩ := s
  replace hc : co = some c := hc
  replace hd : di = some () := hd
  subst hc
  subst hd
  refine ⟨rfl, rfl, ?_⟩
  intro m hm
  rcases List.mem_append.mp hm with hm | hm <;>
    rcases List.mem_singleton.mp hm with rfl <;>
    exact ⟨rfl, rfl, rfl, rfl, rfl⟩

/-- Witness for C3 at a concrete service and anchor. -/
theorem dispatched_action_name_witness :
    sBoth.core = some coreOK ∧ sBoth.display = some () ∧
    ((sBoth.Show none).dispatched = [showMsg] ∧
     (sBoth.ShowAt "intro" none).dispatched = [showAtMsg "intro"] ∧
     ∀ m ∈ (sBoth.Show none).dispatched ++ (sBoth.ShowAt "intro" none).dispatched,
       m.lookup "action" = some (GoVal.str "display.open_window") ∧
       m.lookup "name" = some (GoVal.str "help") ∧
       m.optionsEntry "Title" = some (GoVal.str "Help") ∧
       m.optionsEntry "Width" = some (GoVal.int 800) ∧
       m.optionsEntry "Height" = some (GoVal.int 600)) :=
  ⟨rfl, rfl, dispatched_action_name sBoth coreOK none "intro" rfl rfl⟩

/-- C4: with both collaborators injected, `Show` and `ShowAt` return exactly
the value produced by the core's dispatch `ACTION` on the built message —
the same error value when dispatch fails, `none` when it succeeds. -/
theorem dispatch_error_propagated (s : Service) (c : Core)
    (wails : Option WailsApp) (anchor : String)
    (hc : s.core = some c) (hd : s.display = some ()) :
    (s.Show wails).err = c.ACTION showMsg ∧
    (s.ShowAt anchor wails).err = c.ACTION (showAtMsg anchor) := by
  obtain ⟨co, di, a, o⟩ := s
  replace hc : co = some c := hc
  replace hd : di = some () := hd
  subst hc
  subst hd
  exact ⟨rfl, rfl⟩

/-- Witness for C4 at a concrete service whose dispatch fails with a
distinguished error value. -/
theorem dispatch_error_propagated_witness :
    sBothFail.core = some coreFail ∧ sBothFail.display = some () ∧
    ((sBothFail.Show none).err = coreFail.ACTION showMsg ∧
     (sBothFail.ShowAt "intro" none).err = coreFail.ACTION (showAtMsg "intro")) :=
  ⟨rfl, rfl, dispatch_error_propagated sBothFail coreFail none "intro" rfl rfl⟩

/-- C5 counterexample: with a core injected, no display, and the Wails
singleton unavailable, the returned error message is
"wails application not running" — not "framework application not running" as
the claim states. -/
theorem fallback_message_counterexample :
    sFallback.core.isSome ∧ sFallback.display = none ∧
    (sFallback.Show none).err.map GoError.msg
      = some "wails application not running" ∧
    (sFallback.Show none).err.map GoError.msg
      ≠ some "framework application not running" := by
  refine ⟨rfl, rfl, rfl, ?_⟩
  decide

/-- C5 (amended): with a core injected and no display, `Show`/`ShowAt` fail
with exactly "wails application not running" when the Wails singleton is
unavailable (no window created), and when it is available they create a
window titled "Help", 800 by 600, and return no error; the outcome is a
function of the singleton state. -/
theorem fallback_requires_wails (s : Service) (c : Core) (anchor : String)
    (hc : s.core = some c) (hd : s.display = none) :
    (s.Show none).err = some (Errorf "wails application not running") ∧
    (s.ShowAt anchor none).err = some (Errorf "wails application not running") ∧
    (s.Show none).windows = [] ∧ (s.ShowAt anchor none).windows = [] ∧
    (s.Show (some ())).err = none ∧
    (s.Show (some ())).windows = [fallbackWindow "/"] ∧
    (s.ShowAt anchor (some ())).err = none ∧
    (s.ShowAt anchor (some ())).windows = [fallbackWindow (anchorURL anchor)] ∧
    (fallbackWindow (anchorURL anchor)).Title = "Help" ∧
    (fallbackWindow (anchorURL anchor)).Width = 800 ∧
    (fallbackWindow (anchorURL anchor)).Height = 600 := by
  obtain ⟨co, di, a, o⟩ := s
  replace hc : co = some c := hc
  replace hd : di = none := hd
  subst hc
  subst hd
  exact ⟨rfl, rfl, rfl, rfl, rfl, rfl, rfl, rfl, rfl, rfl, rfl⟩

/-- Witness for the amended C5 at a concrete fallback-mode service. -/
theorem fallback_requires_wails_witness :
    sFallback.core = some coreOK ∧ sFallback.display = none ∧
    ((sFallback.Show none).err
        = some (Errorf "wails application not running") ∧
     (sFallback.ShowAt "intro" none).err
        = some (Errorf "wails application not running") ∧
     (sFallback.Show none).windows = [] ∧
     (sFallback.ShowAt "intro" none).windows = [] ∧
     (sFallback.Show (some ())).err = none ∧
     (sFallback.Show (some ())).windows = [fallbackWindow "/"] ∧
     (sFallback.ShowAt "intro" (some ())).err = none ∧
     (sFallback.ShowAt "intro" (some ())).windows
        = [fallbackWindow (anchorURL "intro")] ∧
     (fallbackWindow (anchorURL "intro")).Title = "Help" ∧
     (fallbackWindow (anchorURL "intro")).Width = 800 ∧
     (fallbackWindow (anchorURL "intro")).Height = 600) :=
  ⟨rfl, rfl, fallback_requires_wails sFallback coreOK "intro" rfl rfl⟩

/-- C6 counterexample: with no injected core, `ServiceStartup` fails with the
message "core runtime not initialized" — not "core not initialized" as the
claim states. -/
theorem serviceStartup_message_counterexample :
    sNoCore.core = none ∧
    (sNoCore.ServiceStartup).err.map GoError.msg
      = some "core runtime not initialized" ∧
    (sNoCore.ServiceStartup).err.map GoError.msg
      ≠ some "core not initialized" := by
  refine ⟨rfl, rfl, ?_⟩
  decide

/-- C6 (amended): `ServiceStartup` fails with exactly
"core runtime not initialized" when no core is injected and performs no
logging; otherwise it succeeds and calls the logger's `Info` exactly once
(with "Help service started"); `Show` and `ShowAt` never invoke the logger. -/
theorem serviceStartup_logging (s : Service) (wails : Option WailsApp)
    (anchor : String) :
    (s.ServiceStartup).err
      = (if s.core.isSome then none
         else some (Errorf "core runtime not initialized")) ∧
    (s.ServiceStartup).logs
      = (if s.core.isSome then ["Help service started"] else []) ∧
    (s.Show wails).logs = [] ∧ (s.ShowAt anchor wails).logs = [] := by
  obtain ⟨co, di, a, o⟩ := s
  cases co <;> cases di <;> cases wails <;>
    simp [Service.ServiceStartup, Service.Show, Service.ShowAt]

/-- The resolution rule for the asset source as the specification words it:
an explicit filesystem wins; otherwise a non-empty, non-default `Source`
selects a directory filesystem; otherwise (empty or "mkdocs") the embedded
default subtree is used. -/
def specAssetResolution (opts : Options) (embeddedDefault : FS) : FS :=
  match opts.Assets with
  | some a => a
  | none =>
      if opts.Source ≠ "" ∧ opts.Source ≠ "mkdocs" then FS.dirFS opts.Source
      else embeddedDefault

/-- C7: the constructor's asset resolution refines the specified priority:
for every options value (with the embedded subtree locatable) the constructed
service's assets equal `specAssetResolution`, and a caller-supplied
filesystem wins for every `Source` and every embedding environment. -/
theorem new_asset_priority (opts : Options) (embedded : FS) (sub : SubResult)
    (a : FS) :
    ((New opts (Except.ok embedded)).1).map Service.assets
      = some (specAssetResolution opts embedded) ∧
    ((New { opts with Assets := some a } sub).1).map Service.assets = some a := by
  obtain ⟨src, assets⟩ := opts
  constructor
  · rcases assets with _ | x
    · by_cases h1 : src = ""
      · subst h1
        simp [New, specAssetResolution]
      · by_cases h2 : src = "mkdocs"
        · subst h2
          simp [New, specAssetResolution]
        · simp [New, specAssetResolution, h1, h2]
    · by_cases h1 : src = "" <;> simp [New, specAssetResolution, h1]
  · by_cases h1 : src = "" <;> simp [New, h1]

/-- C8: the constructor never returns both a service and an error: it returns
a service and a nil error, or a nil service with exactly the error produced
by locating the embedded subtree. -/
theorem new_service_xor_error (opts : Options) (sub : SubResult) :
    ((New opts sub).1.isSome ∧ (New opts sub).2 = none) ∨
    ((New opts sub).1 = none ∧
     ∃ e, sub = Except.error e ∧ (New opts sub).2 = some e) := by
  obtain ⟨src, assets⟩ := opts
  rcases assets with _ | x
  · by_cases h1 : src = ""
    · subst h1
      rcases sub with e | a
      · right
        exact ⟨by simp [New], e, rfl, by simp [New]⟩
      · left
        simp [New]
    · by_cases h2 : src = "mkdocs"
      · subst h2
        rcases sub with e | a
        · right
          exact ⟨by simp [New], e, rfl, by simp [New]⟩
        · left
          simp [New]
      · left
        simp [New, h1, h2]
  · by_cases h1 : src = "" <;> left <;> simp [New, h1]

/-- C9: with both collaborators injected, the `options` map of the message
dispatched by `Show` has exactly the keys `Title`, `Width`, `Height` and no
`URL` entry; only `ShowAt` adds a `URL` key. -/
theorem show_options_keys (s : Service) (c : Core) (wails : Option WailsApp)
    (anchor : String) (hc : s.core = some c) (hd : s.display = some ()) :
    (s.Show wails).dispatched = [showMsg] ∧
    (showMsg.lookup "options").map GoVal.keys
      = some ["Title", "Width", "Height"] ∧
    showMsg.optionsEntry "URL" = none ∧
    (s.ShowAt anchor wails).dispatched = [showAtMsg anchor] ∧
    ((showAtMsg anchor).lookup "options").map GoVal.keys
      = some ["Title", "Width", "Height", "URL"] := by
  obtain ⟨co, di, a, o⟩ := s
  replace hc : co = some c := hc
  replace hd : di = some () := hd
  subst hc
  subst hd
  exact ⟨rfl, rfl, rfl, rfl, rfl⟩

/-- Witness for C9 at a concrete service and anchor. -/
theorem show_options_keys_witness :
    sBoth.core = some coreOK ∧ sBoth.display = some () ∧
    ((sBoth.Show none).dispatched = [showMsg] ∧
     (showMsg.lookup "options").map GoVal.keys
        = some ["Title", "Width", "Height"] ∧
     showMsg.optionsEntry "URL" = none ∧
     (sBoth.ShowAt "intro" none).dispatched = [showAtMsg "intro"] ∧
     ((showAtMsg "intro").lookup "options").map GoVal.keys
        = some ["Title", "Width", "Height", "URL"]) :=
  ⟨rfl, rfl, show_options_keys sBoth coreOK none "intro" rfl rfl⟩

/-- C10: `Show`, `ShowAt` and `ServiceStartup` leave the service state (all
four fields) unchanged whether they succeed or fail; `Init` overwrites
exactly the two collaborator references and keeps `assets` and `opts`. -/
theorem methods_frame (s : Service) (wails : Option WailsApp) (anchor : String)
    (c : Option Core) (d : Option Display) :
    (s.Show wails).post = s ∧ (s.ShowAt anchor wails).post = s ∧
    (s.ServiceStartup).post = s ∧
    (s.Init c d).core = c ∧ (s.Init c d).display = d ∧
    (s.Init c d).assets = s.assets ∧ (s.Init c d).opts = s.opts := by
  obtain ⟨co, di, a, o⟩ := s
  cases co <;> cases di <;> cases wails <;>
    simp [Service.Show, Service.ShowAt, Service.ServiceStartup, Service.Init]

end Help
